import Mathlib

/-!
Verification of the matrix-client repository: a shallow embedding of
`src/client.py` (the response checker and the retry driver) and
`src/schema.py` (the JSON schema validator), together with theorems
settling the specification's claims about them.

Modelling conventions:
* JSON values are the inductive `JsonValue`; Python `dict` bodies are
  association lists with the keys unique in practice (lookup takes the
  first match, as a Python dict has one entry per key).
* JSON numbers are modelled as Python `int`s (`Int`); float bodies are
  out of scope for every claim considered here.
* Python exceptions are modelled with `Except`: an `.error` value is a
  raised exception, `.ok` a normal return.
* Monotonic time is a rational number of nanoseconds.  Reading the
  clock does not advance it (a mock clock); requests and sleeps advance
  it in the run function `retryRun`.
-/

/-- A JSON value as produced by `resp.json()`. -/
inductive JsonValue where
  | null : JsonValue
  | bool (b : Bool) : JsonValue
  | num (n : Int) : JsonValue
  | str (s : String) : JsonValue
  | arr (xs : List JsonValue) : JsonValue
  | obj (kvs : List (String × JsonValue)) : JsonValue

/-- The Python runtime type of a JSON value (what `type(body)` returns). -/
inductive PyType where
  | noneType | boolType | intType | strType | listType | dictType
deriving DecidableEq

/-- Python `type(body)` for a JSON value.  Note Python's `type(True) == int` is
`False` (`bool` is its own type), which the separate `boolType` captures. -/
def pyTypeOf : JsonValue → PyType
  | .null => .noneType
  | .bool _ => .boolType
  | .num _ => .intType
  | .str _ => .strType
  | .arr _ => .listType
  | .obj _ => .dictType

/-- A Python exception other than the repository's own error classes. -/
inductive PyErr where
  | typeError | nameError | keyError | attributeError
deriving DecidableEq

/-- First-match lookup in an association list: Python `body[key]` /
`key in body` on a dict (keys are unique in a real dict, so first match
is the match). -/
def lookupKey (kvs : List (String × JsonValue)) (k : String) : Option JsonValue :=
  (kvs.find? (fun p => p.1 == k)).map (fun p => p.2)

/-- Python `v == s` for a JSON value `v` and string literal `s`: only an
equal string compares equal; values of other types are simply unequal
(no exception). -/
def eqStrVal (v : JsonValue) (s : String) : Bool :=
  match v with
  | .str t => t == s
  | _ => false

/-- Character-list version of `List.IsPrefix` as a boolean. -/
def charsHavePre (n : List Char) : List Char → Bool :=
  fun h =>
    match n, h with
    | [], _ => true
    | _ :: _, [] => false
    | a :: as, b :: bs => a == b && charsHavePre as bs

/-- Contiguous-substring test on character lists (Python `n in h` for
strings). -/
def charsContain (n : List Char) : List Char → Bool
  | [] => n.isEmpty
  | c :: t => charsHavePre n (c :: t) || charsContain n t

/-- Python `needle in v`: key membership on a dict, substring test on a
string, element membership on a list, and a `TypeError` on any
non-container (e.g. `"errcode" in 42`). -/
def pyContains (needle : String) (v : JsonValue) : Except PyErr Bool :=
  match v with
  | .obj kvs => .ok (kvs.any (fun p => p.1 == needle))
  | .str s => .ok (charsContain needle.toList s.toList)
  | .arr xs => .ok (xs.any (fun x => eqStrVal x needle))
  | _ => .error .typeError

/-- Python `v[k]` for a string key: a dict yields the value (or
`KeyError`); string and list subscripts require integers, so a string
key raises `TypeError`; other types are not subscriptable. -/
def pyIndexStr (v : JsonValue) (k : String) : Except PyErr JsonValue :=
  match v with
  | .obj kvs =>
    match lookupKey kvs k with
    | some x => .ok x
    | none => .error .keyError
  | _ => .error .typeError

/-- Python `v.get(k)`: defined on dicts only; any other value lacks the
attribute. -/
def pyGet (v : JsonValue) (k : String) : Except PyErr (Option JsonValue) :=
  match v with
  | .obj kvs => .ok (lookupKey kvs k)
  | _ => .error .attributeError

/-- An HTTP response as the client sees it: status, headers, and the
result of `await resp.json()` (`none` when decoding raises). -/
structure Response where
  status : Nat
  headers : List (String × String)
  body : Option JsonValue

/-- Exceptions that can arise inside the `try` block of
`check_response`. -/
inductive PyExc where
  | matrixError (code : Nat) (body : JsonValue)
  | notMatrixServer
  | decodeError
  | py (e : PyErr)

/-- The observable failure of `check_response` after its handlers ran. -/
inductive MatrixFailure where
  | matrixError (code : Nat) (body : JsonValue)
  | notMatrixServer

/-- The body of `check_response`'s `try` block (src/client.py):

    if resp.status < 200 or resp.status >= 400:
        result = await resp.json()
        if "errcode" not in result:
            raise error.NotMatrixServerError()
        raise error.MatrixError(resp.status, result)
    else:
        return (resp.status, await resp.json())

A failing `resp.json()` is `decodeError`; `"errcode" not in result` can
itself raise (non-container body), modelled by `py e`. -/
def check_response_try (r : Response) : Except PyExc (Nat × JsonValue) :=
  if r.status < 200 ∨ r.status ≥ 400 then
    match r.body with
    | none => .error .decodeError
    | some result =>
      match pyContains "errcode" result with
      | .error e => .error (.py e)
      | .ok c =>
        if !c then .error .notMatrixServer
        else .error (.matrixError r.status result)
  else
    match r.body with
    | none => .error .decodeError
    | some b => .ok (r.status, b)

/-- The function `check_response` with its handlers: `except error.MatrixError: raise`
re-raises a `MatrixError` unchanged, and the bare `except:` turns every
other exception (decode failures, `TypeError` from `in`, and the
`NotMatrixServerError` raised inside the block) into a
`NotMatrixServerError`.  No exception escapes raw, which is why the
result type has only the two repository error classes. -/
def check_response (r : Response) : Except MatrixFailure (Nat × JsonValue) :=
  match check_response_try r with
  | .ok v => .ok v
  | .error (.matrixError c b) => .error (.matrixError c b)
  | .error _ => .error .notMatrixServer

/-- Modelled from the spec's words for claim comparison: "the object
contains an `errcode` field" — true exactly when the decoded value is a
JSON object with an `errcode` key.  (The code's `"errcode" in result`
differs on non-object values; this definition is the spec side of that
comparison.) -/
def specHasErrcodeField : JsonValue → Bool
  | .obj kvs => kvs.any (fun p => p.1 == "errcode")
  | _ => false

/-- The claim about `check_response` as stated, at one response: success
range with a decoding body returns the pair; otherwise a decoded body
with an `errcode` field gives `MatrixError(status, body)`, and a decode
failure or a decoded value lacking an `errcode` field gives
`NotMatrixServerError`. -/
def claimC4Holds (r : Response) : Prop :=
  (∀ b, r.body = some b → 200 ≤ r.status → r.status < 400 →
    check_response r = .ok (r.status, b)) ∧
  ((r.status < 200 ∨ 400 ≤ r.status) →
    (∀ b, r.body = some b → specHasErrcodeField b = true →
      check_response r = .error (.matrixError r.status b)) ∧
    ((r.body = none ∨ ∃ b, r.body = some b ∧ specHasErrcodeField b = false) →
      check_response r = .error .notMatrixServer))

/-- A schema as accepted by `is_valid` in src/schema.py: `typing.Any`, a
bare Python type, a dict of key → schema, one of the `SchemaHelper`
classes (`Optional`, `Union`, `Intersection`, `Object`, `Array`), or a
generic alias `list[T]` / `dict[K, V]`.  The dispatch branches of
`is_valid` are mutually exclusive, so a constructor per branch is
faithful to the source's if/elif chain. -/
inductive Schema where
  | any : Schema
  | prim (t : PyType) : Schema
  | shape (m : List (String × Schema)) : Schema
  | optional (s : Schema) : Schema
  | union (ss : List Schema) : Schema
  | inter (ss : List Schema) : Schema
  | objectOf (s : Schema) : Schema
  | arrayOf (s : Schema) : Schema
  | listGeneric (s : Schema) : Schema
  | dictGeneric (k : PyType) (v : Schema) : Schema

/-- Python `isinstance(value_schema, Optional)`. -/
def isOptionalSchema : Schema → Bool
  | .optional _ => true
  | _ => false

mutual

/-- The function `is_valid(body, schema)` from src/schema.py, with each branch in the
source's order.  Branches that raise in Python are `.error`:
* `Object.is_valid` runs `all(... for value in body.values)` — iterating
  the bound method `body.values` (the call parentheses are missing in the
  source) raises `TypeError` whenever `body` is a dict; a non-dict body
  short-circuits `and` to `False` first.
* the `dict[K, V]` branch evaluates `if key+type != str` — the name
  `key` is unbound there (the source means `key_type`), raising
  `NameError`; a non-dict body returns `False` before that line. -/
def is_valid (body : JsonValue) (schema : Schema) : Except PyErr Bool :=
  match schema with
  | .any => .ok true
  | .prim t => .ok (pyTypeOf body == t)
  | .shape m =>
    match body with
    | .obj kvs => shapeLoop kvs m
    | _ => .ok false
  | .optional b => is_valid body b
  | .union ss => unionLoop body ss
  | .inter ss => interLoop body ss
  | .objectOf _ =>
    match body with
    | .obj _ => .error .typeError
    | _ => .ok false
  | .arrayOf s =>
    match body with
    | .arr xs => elemsLoop xs s
    | _ => .ok false
  | .listGeneric s =>
    match body with
    | .arr xs => elemsLoop xs s
    | _ => .ok false
  | .dictGeneric _ _ =>
    match body with
    | .obj _ => .error .nameError
    | _ => .ok false

/-- The `for key, value_schema in dict.items(schema)` loop of the
dict-schema branch.  On a key absent from the body the source does
`return isinstance(value_schema, Optional)` — an early return in both
directions, exactly as written. -/
def shapeLoop (kvs : List (String × JsonValue)) (m : List (String × Schema)) :
    Except PyErr Bool :=
  match m with
  | [] => .ok true
  | (k, vs) :: rest =>
    match lookupKey kvs k with
    | none => .ok (isOptionalSchema vs)
    | some v =>
      match is_valid v vs with
      | .error e => .error e
      | .ok false => .ok false
      | .ok true => shapeLoop kvs rest

/-- The method `Union.is_valid`: first matching alternative wins. -/
def unionLoop (body : JsonValue) (ss : List Schema) : Except PyErr Bool :=
  match ss with
  | [] => .ok false
  | t :: rest =>
    match is_valid body t with
    | .error e => .error e
    | .ok true => .ok true
    | .ok false => unionLoop body rest

/-- The method `Intersection.is_valid`: every conjunct must hold. -/
def interLoop (body : JsonValue) (ss : List Schema) : Except PyErr Bool :=
  match ss with
  | [] => .ok true
  | t :: rest =>
    match is_valid body t with
    | .error e => .error e
    | .ok false => .ok false
    | .ok true => interLoop body rest

/-- Element loop shared by `Array.is_valid` and the `list[T]` branch
(both stop at the first non-matching element, as `all` does). -/
def elemsLoop (xs : List JsonValue) (s : Schema) : Except PyErr Bool :=
  match xs with
  | [] => .ok true
  | x :: rest =>
    match is_valid x s with
    | .error e => .error e
    | .ok false => .ok false
    | .ok true => elemsLoop rest s

end

/-- Truthiness of `re.match(r"^[\d]+$", s)`: one or more digits spanning the
whole header value. -/
def isDigitsHeader (s : String) : Bool :=
  !s.isEmpty && s.toList.all Char.isDigit

/-- Header lookup, `"Retry-After" in resp.headers` /
`resp.headers["Retry-After"]`. -/
def headerLookup (hs : List (String × String)) (k : String) : Option String :=
  (hs.find? (fun p => p.1 == k)).map (fun p => p.2)

/-- The 429 guard of the retry loop:
`resp.status == 429 and "Retry-After" in resp.headers and re.match(...)`. -/
def rateLimit429Guard (r : Response) : Bool :=
  r.status == 429 &&
    (match headerLookup r.headers "Retry-After" with
     | some v => isDigitsHeader v
     | none => false)

/-- Evaluation of the guard
`"errcode" in result and result["errcode"] == "M_LIMIT_EXCEEDED" and
type(result.get("retry_after_ms")) == int`, with Python's left-to-right
short-circuiting and its possible exceptions (`in` or `[...]` on a
non-dict body).  `.ok (some n)` means the guard is true with
`retry_after_ms = n`; `.ok none` means it is false. -/
def limitExceededGuard (result : JsonValue) : Except PyErr (Option Int) :=
  match pyContains "errcode" result with
  | .error e => .error e
  | .ok false => .ok none
  | .ok true =>
    match pyIndexStr result "errcode" with
    | .error e => .error e
    | .ok v =>
      if eqStrVal v "M_LIMIT_EXCEEDED" then
        match pyGet result "retry_after_ms" with
        | .error e => .error e
        | .ok (some (.num n)) => .ok (some n)
        | .ok _ => .ok none
      else .ok none

/-- An observable effect of one iteration of the retry loop, in order:
`await resp.release()` and `await asyncio.sleep(seconds)` (the argument
actually passed to `asyncio.sleep`). -/
inductive Eff where
  | release : Eff
  | sleep (seconds : ℚ) : Eff
deriving DecidableEq

/-- How one iteration of the retry loop ends: return the current
response to the caller, propagate an exception, or go around again with
a possibly-updated backoff. -/
inductive StepCtl where
  | ret : StepCtl
  | raised (e : PyErr) : StepCtl
  | next (backoff : ℚ) : StepCtl
deriving DecidableEq

/-- One iteration of the `while True` loop of `retry` (src/client.py),
after `resp = await req_func(...)` produced `r`, at mock-clock time
`now` (ns): the effects performed on `r`, in order, and how the
iteration ends.  Mirrors the source line by line:
* `resp.status < 400` → return;
* `resp.json()` raises → return if past the deadline, else release,
  sleep `min(backoff, (end_time - now)/1_000_000)` (the expression as
  written, mixing seconds and milliseconds), double the backoff, retry;
* past the deadline → return;
* the 429 guard holds → release, then `delay = int(res.headers[...])`
  reads the unbound name `res` and raises `NameError`;
* the `M_LIMIT_EXCEEDED` guard holds with `retry_after_ms = n` →
  release, then return if `now + n*1_000_000 > end_time` (the response
  is already released at that point), else sleep `ceil(n/1000)` seconds
  and retry with the backoff unchanged;
* evaluating that guard raises → the exception propagates;
* otherwise → return. -/
def retryStep (now endTime backoff : ℚ) (r : Response) : List Eff × StepCtl :=
  if r.status < 400 then ([], .ret)
  else
    match r.body with
    | none =>
      if now > endTime then ([], .ret)
      else
        ([.release, .sleep (min backoff ((endTime - now) / 1000000))],
          .next (backoff * 2))
    | some result =>
      if now > endTime then ([], .ret)
      else if rateLimit429Guard r then
        ([.release], .raised .nameError)
      else
        match limitExceededGuard result with
        | .error e => ([], .raised e)
        | .ok none => ([], .ret)
        | .ok (some n) =>
          if now + n * 1000000 > endTime then ([.release], .ret)
          else ([.release, .sleep ((⌈(n : ℚ) / 1000⌉ : ℤ) : ℚ)], .next backoff)

/-- How the retry loop as a whole ends: a response handed to the caller
(together with whether `release` was called on it during its
iteration), or an uncaught exception. -/
inductive Outcome where
  | ret (r : Response) (released : Bool) : Outcome
  | raised (e : PyErr) : Outcome

/-- Advance the mock clock over one effect: `release` is instantaneous,
`asyncio.sleep(s)` takes `max s 0` seconds (a non-positive argument
yields immediately). -/
def effAdvance (t : ℚ) : Eff → ℚ
  | .release => t
  | .sleep s => t + max s 0 * 1000000000

/-- The retry loop run under a mock clock, with `fuel` bounding the
number of iterations (the source loop need not terminate, e.g. under a
clock that never advances).  `respOf i` is the response of the `i`-th
call to `req_func` and `reqDur i` the time (ns) that call takes; `tr`
accumulates the effects performed so far.  The result carries the
outcome, the index one past the last request made (= the number of
requests when started at `i = 0`), and the full effect trace. -/
def retryRun (respOf : Nat → Response) (reqDur : Nat → ℚ) (endTime : ℚ) :
    Nat → Nat → ℚ → ℚ → List Eff → Option (Outcome × Nat × List Eff)
  | 0, _, _, _, _ => none
  | fuel + 1, i, now, backoff, tr =>
    let r := respOf i
    let now1 := now + reqDur i
    match retryStep now1 endTime backoff r with
    | (effs, .ret) => some (.ret r (effs.contains .release), i + 1, tr ++ effs)
    | (effs, .raised e) => some (.raised e, i + 1, tr ++ effs)
    | (effs, .next b1) =>
      retryRun respOf reqDur endTime fuel (i + 1) (effs.foldl effAdvance now1) b1
        (tr ++ effs)

/-- The function `retry(limit, req_func, ...)`: `end_time = time.monotonic_ns() +
limit * 1_000_000` with the clock starting at `t0`, initial backoff 2,
and the loop entered at its first request. -/
def retry (respOf : Nat → Response) (reqDur : Nat → ℚ) (limitMs : ℚ) (t0 : ℚ)
    (fuel : Nat) : Option (Outcome × Nat × List Eff) :=
  retryRun respOf reqDur (t0 + limitMs * 1000000) fuel 0 t0 2 []

/-! Helper lemmas shared by the claim theorems. -/

/-- A successful association-list lookup means some pair carries the key. -/
theorem lookupKey_any {kvs : List (String × JsonValue)} {k : String} {v : JsonValue}
    (h : lookupKey kvs k = some v) : kvs.any (fun p => p.1 == k) = true := by
  unfold lookupKey at h
  rcases Option.map_eq_some'.mp h with ⟨p, hfind, -⟩
  have hp := List.find?_some hfind
  exact List.any_eq_true.mpr ⟨p, List.mem_of_find?_eq_some hfind, hp⟩

/-- On an object body carrying `errcode = "M_LIMIT_EXCEEDED"` and an
integer `retry_after_ms`, the `M_LIMIT_EXCEEDED` guard evaluates to that
integer without raising. -/
theorem limitExceededGuard_of_lookups {kvs : List (String × JsonValue)} {n : Int}
    (herr : lookupKey kvs "errcode" = some (.str "M_LIMIT_EXCEEDED"))
    (hram : lookupKey kvs "retry_after_ms" = some (.num n)) :
    limitExceededGuard (.obj kvs) = .ok (some n) := by
  simp [limitExceededGuard, pyContains, pyIndexStr, pyGet, herr, hram,
    lookupKey_any herr, eqStrVal]

/-- Whenever the retry loop yields an outcome, at least one request past
the entry index was made (the loop body starts with `req_func`). -/
theorem retryRun_progress (rof : Nat → Response) (rd : Nat → ℚ) (endT : ℚ) :
    ∀ fl i now b tr out, retryRun rof rd endT fl i now b tr = some out →
      i < out.2.1 := by
  intro fl
  induction fl with
  | zero => intro i now b tr out h; simp [retryRun] at h
  | succ m ih =>
    intro i now b tr out h
    rw [retryRun] at h
    rcases hs : retryStep (now + rd i) endT b (rof i) with ⟨effs, ctl⟩
    rw [hs] at h
    cases ctl with
    | ret => injection h with h1; subst h1; simp
    | raised e => injection h with h1; subst h1; simp
    | next b1 =>
      have := ih (i + 1) (effs.foldl effAdvance (now + rd i)) b1 (tr ++ effs) out h
      omega

/-! The claims. -/

/-- C1: refuting evaluation at the failing input.  With a request
function persistently returning status 429 with header
`Retry-After: "1"` and a JSON-decodable body, and a 5000 ms time limit,
the retry driver does not return a Response: its first iteration raises
`NameError` (the 429 branch reads the unbound name `res`), contradicting
"never raises an exception of its own ... including along the branch
that handles status 429 with a digits-only Retry-After header". -/
theorem retry_429_digits_header_raises :
    retry (fun _ => ⟨429, [("Retry-After", "1")], some (.obj [])⟩) (fun _ => 1)
        5000 0 3
      = some (.raised .nameError, 1, [.release]) := by
  norm_num +decide [retry, retryRun, retryStep, rateLimit429Guard, headerLookup,
    isDigitsHeader]

/-- C2: refuting evaluation at the failing input.  On a 429 response
with a digits-only `Retry-After` header, a decoded body and the deadline
not yet passed, the loop iteration releases the response and then raises
`NameError` instead of reading the validated header, sleeping and
retrying: the source computes `delay = int(res.headers["Retry-After"])`
with `res` unbound (the spec's contract is to read `resp`'s header). -/
theorem retryStep_429_reads_unbound_name :
    retryStep 1 5000000000 2 ⟨429, [("Retry-After", "1")], some (.obj [])⟩
      = ([.release], .raised .nameError) := by
  norm_num +decide [retryStep, rateLimit429Guard, headerLookup, isDigitsHeader]

/-- C3: refuting evaluation at the failing input.  Validating `{}`
against the shaped schema `{"a": Optional(int), "b": int}` returns
`True`: on the first absent key the source does
`return isinstance(value_schema, Optional)`, so an absent `Optional` key
excuses the remaining keys from being checked — the required key `"b"`
alone rejects `{}`, as the second conjunct shows. -/
theorem shape_absent_optional_skips_rest :
    is_valid (.obj [])
        (.shape [("a", .optional (.prim .intType)), ("b", .prim .intType)])
      = .ok true ∧
    is_valid (.obj []) (.shape [("b", .prim .intType)]) = .ok false := by
  constructor
  · simp [is_valid, shapeLoop, lookupKey, isOptionalSchema]
  · simp [is_valid, shapeLoop, lookupKey, isOptionalSchema]

/-- C4, counterexample: at status 500 with a body decoding to the JSON
array `["errcode"]`, the decoded value is not an object and so lacks an
`errcode` field, yet `check_response` fails with
`MatrixError(500, ["errcode"])` rather than `NotMatrixServerError`,
because `"errcode" in result` on a Python list is element membership. -/
theorem check_response_claim_refuted :
    ¬ claimC4Holds ⟨500, [], some (.arr [.str "errcode"])⟩ := by
  intro h
  have h2 := (h.2 (Or.inr (by norm_num))).2
    (Or.inr ⟨.arr [.str "errcode"], rfl, rfl⟩)
  have h3 : check_response ⟨500, [], some (.arr [.str "errcode"])⟩
      = .error (.matrixError 500 (.arr [.str "errcode"])) := rfl
  rw [h3] at h2
  simp at h2

/-- C4 (amended): for every response, if `200 ≤ status < 400` and the
body decodes, `check_response` returns `(status, decoded body)`;
otherwise, when the body decodes and Python's `"errcode" in result` is
true (for an object: the key is present; also for a string containing
`"errcode"` or an array with element `"errcode"`) it fails with
`MatrixError(status, body)`, and when the body fails to decode or that
membership test is not true (including when it raises, e.g. on a numeric
body) it fails with `NotMatrixServerError`; no exception arising during
decode propagates raw (the result type has only the two error classes). -/
theorem check_response_amended (r : Response) :
    (∀ b, r.body = some b → 200 ≤ r.status → r.status < 400 →
      check_response r = .ok (r.status, b)) ∧
    ((r.status < 200 ∨ 400 ≤ r.status) →
      (∀ b, r.body = some b → pyContains "errcode" b = .ok true →
        check_response r = .error (.matrixError r.status b)) ∧
      (∀ b, r.body = some b → pyContains "errcode" b ≠ .ok true →
        check_response r = .error .notMatrixServer) ∧
      (r.body = none → check_response r = .error .notMatrixServer)) := by
  rcases r with ⟨st, hdrs, rb⟩
  constructor
  · rintro b rfl hge hlt
    dsimp only at hge hlt ⊢
    simp only [check_response, check_response_try]
    rw [if_neg (by omega)]
  · rintro hrange
    refine ⟨?_, ?_, ?_⟩
    · rintro b rfl hc
      simp only [check_response, check_response_try]
      rw [if_pos (by simpa using hrange), hc]
      rfl
    · rintro b rfl hc
      simp only [check_response, check_response_try]
      rw [if_pos (by simpa using hrange)]
      rcases hg : pyContains "errcode" b with e | c
      · rfl
      · rcases c
        · rfl
        · exact absurd hg hc
    · rintro rfl
      simp only [check_response, check_response_try]
      rw [if_pos (by simpa using hrange)]

/-- C4, witness: a 404 with a decoded `errcode` object fails with
`MatrixError(404, body)`, by the amended theorem. -/
theorem check_response_amended_witness :
    check_response ⟨404, [], some (.obj [("errcode", .str "M_NOT_FOUND")])⟩
      = .error (.matrixError 404 (.obj [("errcode", .str "M_NOT_FOUND")])) :=
  ((check_response_amended _).2 (Or.inr (by norm_num))).1 _ rfl rfl

/-- C5: refuting evaluation at the failing input.  Validating the
object `{"k1": 1, "k2": 2}` against `Object(int)` does not return a
boolean: `Object.is_valid` iterates `body.values` — the bound method,
not `body.values()` — which raises `TypeError` on every dict body (the
spec's example expects `True` here). -/
theorem objectOf_dict_raises_typeError :
    is_valid (.obj [("k1", .num 1), ("k2", .num 2)]) (.objectOf (.prim .intType))
      = .error .typeError := by
  simp [is_valid]

/-- C6: refuting evaluation at the failing input.  Validating the
object `{"a": 1}` against the generic annotation `dict[str, int]` does
not return a boolean: the branch evaluates `if key+type != str` where
`key` is unbound (the source means `key_type`), raising `NameError`
(the spec expects `True` here). -/
theorem dictGeneric_dict_raises_nameError :
    is_valid (.obj [("a", .num 1)]) (.dictGeneric .strType (.prim .intType))
      = .error .nameError := by
  simp [is_valid]

/-- C7: on an error response (status ≥ 400, not captured by the 429
header branch) whose body decodes to an object with
`errcode = "M_LIMIT_EXCEEDED"` and an integer `retry_after_ms = n`, with
the deadline not yet passed, the loop iteration returns the response
when `now + n` ms exceeds the deadline, and otherwise releases it,
sleeps exactly `ceil(n / 1000)` seconds and retries (with the backoff
unchanged). -/
theorem retryStep_limit_exceeded_branch
    (now endTime backoff : ℚ) (st : Nat) (hdrs : List (String × String))
    (kvs : List (String × JsonValue)) (n : Int)
    (hs : 400 ≤ st) (hdl : ¬ now > endTime)
    (h429 : rateLimit429Guard ⟨st, hdrs, some (.obj kvs)⟩ = false)
    (herr : lookupKey kvs "errcode" = some (.str "M_LIMIT_EXCEEDED"))
    (hram : lookupKey kvs "retry_after_ms" = some (.num n)) :
    retryStep now endTime backoff ⟨st, hdrs, some (.obj kvs)⟩ =
      if now + n * 1000000 > endTime then ([.release], .ret)
      else ([.release, .sleep ((⌈(n : ℚ) / 1000⌉ : ℤ) : ℚ)], .next backoff) := by
  simp only [retryStep]
  rw [if_neg (by omega : ¬ st < 400), if_neg hdl, if_neg (by simp [h429]),
    limitExceededGuard_of_lookups herr hram]

/-- C7, witness: with `retry_after_ms = 1500` and a large time limit the
iteration sleeps `ceil(1500 / 1000) = 2` seconds and retries, by the
branch theorem. -/
theorem retryStep_limit_exceeded_branch_witness :
    retryStep 0 10000000000000 2
        ⟨500, [], some (.obj [("errcode", .str "M_LIMIT_EXCEEDED"),
          ("retry_after_ms", .num 1500)])⟩
      = ([.release, .sleep 2], .next 2) := by
  have h := retryStep_limit_exceeded_branch 0 10000000000000 2 500 []
    [("errcode", .str "M_LIMIT_EXCEEDED"), ("retry_after_ms", .num 1500)] 1500
    (by norm_num) (by norm_num) (by decide) rfl rfl
  rw [h, if_neg (by norm_num)]
  have hc : ⌈((1500 : ℤ) : ℚ) / 1000⌉ = (2 : ℤ) := by
    rw [Int.ceil_eq_iff]; push_cast; norm_num
  rw [hc]
  norm_num

/-- C8: whenever the retry loop yields an outcome it made at least one
request, whatever the time limit; and with `timeLimitMs = 0`, a request
function persistently returning status 503 with an undecodable body,
and any positive first-request duration (so the deadline has elapsed by
the first check), `retry` returns the first attempt's response, not
released, with an empty effect trace — no sleep. -/
theorem retry_first_attempt (respOf : Nat → Response) (reqDur : Nat → ℚ)
    (t0 : ℚ) (fuel : Nat)
    (hresp : ∀ i, respOf i = ⟨503, [], none⟩) (hdur : 0 < reqDur 0) :
    (∀ rof rd endT fl i now b tr out,
      retryRun rof rd endT fl i now b tr = some out → i < out.2.1) ∧
    retry respOf reqDur 0 t0 (fuel + 1)
      = some (.ret ⟨503, [], none⟩ false, 1, []) := by
  refine ⟨fun rof rd endT fl => retryRun_progress rof rd endT fl, ?_⟩
  rw [retry, retryRun, hresp 0]
  have hstep : retryStep (t0 + reqDur 0) (t0 + 0 * 1000000) 2 ⟨503, [], none⟩
      = ([], .ret) := by
    simp only [retryStep]
    rw [if_neg (by norm_num : ¬ (503 : Nat) < 400), if_pos (by linarith)]
  rw [hstep]
  simp

/-- C8, witness: the zero-limit scenario at concrete values, by the
first-attempt theorem. -/
theorem retry_first_attempt_witness :
    (0 : ℚ) < 1 ∧
    retry (fun _ => ⟨503, [], none⟩) (fun _ => 1) 0 0 1
      = some (.ret ⟨503, [], none⟩ false, 1, []) :=
  ⟨by norm_num,
    (retry_first_attempt (fun _ => ⟨503, [], none⟩) (fun _ => 1) 0 0
      (fun _ => rfl) (by norm_num)).2⟩

/-- C9: refuting evaluation at the failing input.  With a response
carrying `errcode = "M_LIMIT_EXCEEDED"` and `retry_after_ms` so large
that the requested delay overruns the 1000 ms deadline, the driver
returns that response after having released it (`released = true` in the
outcome, and `release` is the iteration's sole effect): the source
releases before the deadline check, so the returned Response has been
released, contrary to the claim. -/
theorem retry_returns_released_response :
    retry (fun _ => ⟨500, [], some (.obj [("errcode", .str "M_LIMIT_EXCEEDED"),
        ("retry_after_ms", .num 100000000)])⟩) (fun _ => 1) 1000 0 3
      = some (.ret ⟨500, [], some (.obj [("errcode", .str "M_LIMIT_EXCEEDED"),
        ("retry_after_ms", .num 100000000)])⟩ true, 1, [.release]) := by
  norm_num +decide [retry, retryRun, retryStep, rateLimit429Guard, headerLookup,
    isDigitsHeader, limitExceededGuard, pyContains, pyIndexStr, pyGet, lookupKey,
    eqStrVal]

/-- C10: a response with a success-range status whose body fails to
decode as JSON makes `check_response` fail with `NotMatrixServerError`
(the same error as for a malformed error response), and every successful
return of `check_response` carries the successfully decoded JSON body. -/
theorem check_response_success_needs_decoded_body
    (st : Nat) (hdrs : List (String × String)) (h1 : 200 ≤ st) (h2 : st < 400) :
    check_response ⟨st, hdrs, none⟩ = .error .notMatrixServer ∧
    ∀ r : Response, ∀ s : Nat, ∀ b : JsonValue,
      check_response r = .ok (s, b) → r.body = some b := by
  constructor
  · simp [check_response, check_response_try]
  · intro r s b h
    rcases r with ⟨rs, rh, rb⟩
    rcases rb with - | v
    · simp [check_response, check_response_try] at h
    · simp only [check_response, check_response_try] at h ⊢
      split_ifs at h with hc
      · rcases hg : pyContains "errcode" v with e | c
        · rw [hg] at h; simp at h
        · rw [hg] at h; rcases c <;> simp_all
      · simp_all

/-- C10, witness: a 204 with an undecodable body, by the theorem. -/
theorem check_response_success_needs_decoded_body_witness :
    check_response ⟨204, [], none⟩ = .error .notMatrixServer :=
  (check_response_success_needs_decoded_body 204 [] (by norm_num) (by norm_num)).1
